import Mathlib

/-!
Verification of the PackageKit D-Bus client of cockpit-package-manager.

The development shallowly embeds the parts of `packagemanager/packagekit.ts`
(`parsePackageId`, `watchTransaction`, `cancellableTransaction`, the search
facades and `detect`), `packagemanager/types.ts` (`PkEnum`, `ProgressData`,
`TransactionError`) and `packagemanager/groups.ts` (`mapGroupEnumToId`,
`mapGroupIdToEnum`) into Lean.

Modelling conventions:
* JavaScript strings handled character-wise by the package-id codec are
  `List Char` (named `JSString`); `str.split(';')` is `List.splitOn ';'` and
  `str.includes(sub)` is contiguous-sublist containment.
* The event-driven transaction client is a step function on an explicit
  state; the JavaScript promise's settle-exactly-once discipline is encoded
  by `settleResolve`/`settleReject`, which are no-ops on a settled state.
* The 1000ms `setTimeout` that enables `allowWaitStatus` is the dedicated
  event `Event.waitTimer`.
-/

/-! ## PkEnum constants (types.ts) -/

namespace PkEnum

def EXIT_SUCCESS : Int := 1
def EXIT_FAILED : Int := 2
def EXIT_CANCELLED : Int := 3

def INFO_UNKNOWN : Int := -1
def INFO_INSTALLED : Int := 1
def INFO_AVAILABLE : Int := 2

def STATUS_WAIT : Int := 1
def STATUS_DOWNLOAD : Int := 8
def STATUS_INSTALL : Int := 9
def STATUS_WAITING_FOR_LOCK : Int := 30

def FILTER_INSTALLED : Int := 4
def FILTER_NOT_INSTALLED : Int := 8
def FILTER_NEWEST : Int := 65536
def FILTER_ARCH : Int := 262144
def FILTER_NOT_SOURCE : Int := 2097152

/-- The numeric PackageKit group codes (`PkGroupEnum` from `pk-enum.h`), as
declared in the `PkEnum` constant of the repository's `types.ts` (the
revision embedded alongside `package-list.tsx`, which carries the full enum
used by `groups.ts`): `GROUP_UNKNOWN: 0` through `GROUP_NEWEST: 34`. -/
def GROUP_UNKNOWN : Int := 0

def GROUP_ACCESSIBILITY : Int := 1
def GROUP_ACCESSORIES : Int := 2
def GROUP_ADMIN_TOOLS : Int := 3
def GROUP_COMMUNICATION : Int := 4
def GROUP_DESKTOP_GNOME : Int := 5
def GROUP_DESKTOP_KDE : Int := 6
def GROUP_DESKTOP_XFCE : Int := 7
def GROUP_DESKTOP_OTHER : Int := 8
def GROUP_EDUCATION : Int := 9
def GROUP_FONTS : Int := 10
def GROUP_GAMES : Int := 11
def GROUP_GRAPHICS : Int := 12
def GROUP_INTERNET : Int := 13
def GROUP_LEGACY : Int := 14
def GROUP_LOCALIZATION : Int := 15
def GROUP_MAPS : Int := 16
def GROUP_MULTIMEDIA : Int := 17
def GROUP_NETWORK : Int := 18
def GROUP_OFFICE : Int := 19
def GROUP_OTHER : Int := 20
def GROUP_POWER_MANAGEMENT : Int := 21
def GROUP_PROGRAMMING : Int := 22
def GROUP_PUBLISHING : Int := 23
def GROUP_REPOS : Int := 24
def GROUP_SECURITY : Int := 25
def GROUP_SERVERS : Int := 26
def GROUP_SYSTEM : Int := 27
def GROUP_VIRTUALIZATION : Int := 28
def GROUP_SCIENCE : Int := 29
def GROUP_DOCUMENTATION : Int := 30
def GROUP_ELECTRONICS : Int := 31
def GROUP_COLLECTIONS : Int := 32
def GROUP_VENDOR : Int := 33
def GROUP_NEWEST : Int := 34

end PkEnum

/-! ## Package-id codec (packagekit.ts, parsePackageId) -/

/-- JavaScript strings handled by the codec, as character lists. -/
abbrev JSString := List Char

/-- The `PackageInfo` record of `types.ts` (fields populated by
`parsePackageId`). -/
structure PackageInfo where
  id : JSString
  name : JSString
  version : JSString
  arch : JSString
  repo : JSString
  summary : JSString
  installed : Bool
deriving DecidableEq, Repr

/-- JavaScript `haystack.includes(needle)`: contiguous substring test. -/
def jsIncludes (haystack needle : JSString) : Bool :=
  decide (needle <:+: haystack)

/-- The installed-marker substring tested by `parsePackageId`. -/
def installedMarker : JSString := "installed".toList

/-- The string branch of `parsePackageId`: split on `;` and populate the
record.  `parts[i] || ''` yields the empty string both for a missing index
and for an empty part, which `List.getD i []` reproduces;
`parts[3]?.includes('installed') || false` is false when `parts[3]` is
missing, which `jsIncludes` on the `[]` default reproduces. -/
def parsePackageIdRecord (packageId : JSString) : PackageInfo :=
  let parts := packageId.splitOn ';'
  { id := packageId
    name := parts.getD 0 []
    version := parts.getD 1 []
    arch := parts.getD 2 []
    repo := parts.getD 3 []
    summary := []
    installed := jsIncludes (parts.getD 3 []) installedMarker }

/-- A JavaScript value passed to `parsePackageId`: a string, or any
non-string value (carrying its `typeof` name for the error message). -/
inductive JsValue where
  | str (s : JSString)
  | nonString (typeName : String)
deriving DecidableEq, Repr

/-- `parsePackageId`: non-string inputs throw a `TypeError` synchronously;
string inputs always produce a full record. -/
def parsePackageId : JsValue → Except String PackageInfo
  | JsValue.nonString t => Except.error ("packageId must be a string, got " ++ t)
  | JsValue.str s => Except.ok (parsePackageIdRecord s)

/-! ## Availability probe (packagekit.ts, detect) -/

/-- Outcome of `detect`, instrumented with whether the D-Bus property read
(`dbusDetect`) was attempted. -/
structure DetectOutcome where
  available : Bool
  propertyReadAttempted : Bool
deriving DecidableEq, Repr

/-- `dbusDetect`: a lightweight `VersionMajor` property read, collapsed to a
boolean (`then => true`, `catch => false`); the read is always attempted. -/
def dbusDetect (propertyReadOk : Bool) : DetectOutcome :=
  { available := propertyReadOk, propertyReadAttempted := true }

/-- The read-only marker tested by `detect`. -/
def roOption : JSString := "ro".toList

/-- `detect`: run `findmnt -T /usr -n -o VFS-OPTIONS`; on success, if the
comma-separated option list contains `ro` (`options.split(',').indexOf('ro')
>= 0`), return false without the property read, otherwise fall through to
`dbusDetect`; if `findmnt` itself fails, fall back to `dbusDetect`.
`findmntOutput = none` models a failed spawn. -/
def detect (findmntOutput : Option JSString) (propertyReadOk : Bool) : DetectOutcome :=
  match findmntOutput with
  | none => dbusDetect propertyReadOk
  | some options =>
    if (options.splitOn ',').contains roOption then
      { available := false, propertyReadAttempted := false }
    else
      dbusDetect propertyReadOk

/-! ## Group maps (groups.ts) -/

/-- The entries of the `groupMap` object literal in `mapGroupEnumToId`, in
source order. -/
def groupEnumToIdEntries : List (Int × String) :=
  [(PkEnum.GROUP_UNKNOWN, "unknown"),
   (PkEnum.GROUP_ACCESSIBILITY, "accessibility"),
   (PkEnum.GROUP_ACCESSORIES, "accessories"),
   (PkEnum.GROUP_ADMIN_TOOLS, "admin-tools"),
   (PkEnum.GROUP_COMMUNICATION, "communication"),
   (PkEnum.GROUP_DESKTOP_GNOME, "desktop-gnome"),
   (PkEnum.GROUP_DESKTOP_KDE, "desktop-kde"),
   (PkEnum.GROUP_DESKTOP_XFCE, "desktop-xfce"),
   (PkEnum.GROUP_DESKTOP_OTHER, "desktop-other"),
   (PkEnum.GROUP_EDUCATION, "education"),
   (PkEnum.GROUP_FONTS, "fonts"),
   (PkEnum.GROUP_GAMES, "games"),
   (PkEnum.GROUP_GRAPHICS, "graphics"),
   (PkEnum.GROUP_INTERNET, "internet"),
   (PkEnum.GROUP_LEGACY, "legacy"),
   (PkEnum.GROUP_LOCALIZATION, "localization"),
   (PkEnum.GROUP_MAPS, "maps"),
   (PkEnum.GROUP_MULTIMEDIA, "multimedia"),
   (PkEnum.GROUP_NETWORK, "network"),
   (PkEnum.GROUP_OFFICE, "office"),
   (PkEnum.GROUP_OTHER, "other"),
   (PkEnum.GROUP_POWER_MANAGEMENT, "power-management"),
   (PkEnum.GROUP_PROGRAMMING, "programming"),
   (PkEnum.GROUP_PUBLISHING, "publishing"),
   (PkEnum.GROUP_REPOS, "repos"),
   (PkEnum.GROUP_SECURITY, "security"),
   (PkEnum.GROUP_SERVERS, "servers"),
   (PkEnum.GROUP_SYSTEM, "system"),
   (PkEnum.GROUP_VIRTUALIZATION, "virtualization"),
   (PkEnum.GROUP_SCIENCE, "science"),
   (PkEnum.GROUP_DOCUMENTATION, "documentation"),
   (PkEnum.GROUP_ELECTRONICS, "electronics"),
   (PkEnum.GROUP_COLLECTIONS, "collections"),
   (PkEnum.GROUP_VENDOR, "vendor"),
   (PkEnum.GROUP_NEWEST, "newest")]

/-- `mapGroupEnumToId`: object lookup, then the JavaScript
`groupMap[groupEnum] || 'unknown'` fallback (an empty string would be falsy;
a missing key yields the fallback). -/
def mapGroupEnumToId (groupEnum : Int) : String :=
  match groupEnumToIdEntries.lookup groupEnum with
  | some gid => if gid = "" then "unknown" else gid
  | none => "unknown"

/-- The entries of the `idToEnumMap` object literal in `mapGroupIdToEnum`,
in source order. -/
def groupIdToEnumEntries : List (String × Int) :=
  [("unknown", PkEnum.GROUP_UNKNOWN),
   ("accessibility", PkEnum.GROUP_ACCESSIBILITY),
   ("accessories", PkEnum.GROUP_ACCESSORIES),
   ("admin-tools", PkEnum.GROUP_ADMIN_TOOLS),
   ("communication", PkEnum.GROUP_COMMUNICATION),
   ("desktop-gnome", PkEnum.GROUP_DESKTOP_GNOME),
   ("desktop-kde", PkEnum.GROUP_DESKTOP_KDE),
   ("desktop-xfce", PkEnum.GROUP_DESKTOP_XFCE),
   ("desktop-other", PkEnum.GROUP_DESKTOP_OTHER),
   ("education", PkEnum.GROUP_EDUCATION),
   ("fonts", PkEnum.GROUP_FONTS),
   ("games", PkEnum.GROUP_GAMES),
   ("graphics", PkEnum.GROUP_GRAPHICS),
   ("internet", PkEnum.GROUP_INTERNET),
   ("legacy", PkEnum.GROUP_LEGACY),
   ("localization", PkEnum.GROUP_LOCALIZATION),
   ("maps", PkEnum.GROUP_MAPS),
   ("multimedia", PkEnum.GROUP_MULTIMEDIA),
   ("network", PkEnum.GROUP_NETWORK),
   ("office", PkEnum.GROUP_OFFICE),
   ("other", PkEnum.GROUP_OTHER),
   ("power-management", PkEnum.GROUP_POWER_MANAGEMENT),
   ("programming", PkEnum.GROUP_PROGRAMMING),
   ("publishing", PkEnum.GROUP_PUBLISHING),
   ("repos", PkEnum.GROUP_REPOS),
   ("security", PkEnum.GROUP_SECURITY),
   ("servers", PkEnum.GROUP_SERVERS),
   ("system", PkEnum.GROUP_SYSTEM),
   ("virtualization", PkEnum.GROUP_VIRTUALIZATION),
   ("science", PkEnum.GROUP_SCIENCE),
   ("documentation", PkEnum.GROUP_DOCUMENTATION),
   ("electronics", PkEnum.GROUP_ELECTRONICS),
   ("collections", PkEnum.GROUP_COLLECTIONS),
   ("vendor", PkEnum.GROUP_VENDOR),
   ("newest", PkEnum.GROUP_NEWEST)]

/-- `mapGroupIdToEnum`: object lookup, then the JavaScript
`idToEnumMap[groupId] || PkEnum.GROUP_UNKNOWN` fallback (the numeric value 0
is falsy; a missing key yields the fallback). -/
def mapGroupIdToEnum (groupId : String) : Int :=
  match groupIdToEnumEntries.lookup groupId with
  | some v => if v = 0 then PkEnum.GROUP_UNKNOWN else v
  | none => PkEnum.GROUP_UNKNOWN

/-- The group id tokens recognized by `mapGroupIdToEnum`. -/
def recognizedGroupIds : List String := groupIdToEnumEntries.map Prod.fst

/-- The numeric group codes recognized by `mapGroupEnumToId`. -/
def recognizedGroupEnums : List Int := groupEnumToIdEntries.map Prod.fst

/-! ## Transaction lifecycle client (packagekit.ts, cancellableTransaction) -/

/-- The typed error of `types.ts` used for promise rejections. -/
structure TransactionError where
  code : String
  detail : String
deriving DecidableEq, Repr

/-- How the promise returned by `cancellableTransaction` settled. -/
inductive Settlement where
  | resolved (exitCode : Int)
  | rejected (err : TransactionError)
deriving DecidableEq, Repr

/-- The `ProgressData` snapshot pushed to the progress callback.  The
`cancel` field holds whether the bound cancel callback is currently exposed
(`null` in the source is `false` here). -/
structure ProgressData where
  waiting : Bool
  percentage : Int
  cancel : Bool
deriving DecidableEq, Repr

/-- A property-change notification for the transaction path: each field is
present (`'Status' in props`) or absent. -/
structure Props where
  Status : Option Int
  AllowCancel : Option Bool
  Percentage : Option Int
deriving DecidableEq, Repr

/-- The property-change notification with no fields present, as delivered by
the `setTimeout` callback (`changed({}, '')`). -/
def emptyProps : Props := { Status := none, AllowCancel := none, Percentage := none }

/-- The mutable state captured by one `cancellableTransaction` call:
the promise settlement, the `cancelled` / `status` / `allowWaitStatus`
variables, the `progressData` record, and whether `progressCb` is still set
(the handlers clear it on settlement). -/
structure TxState where
  settled : Option Settlement
  cancelled : Bool
  status : Option Int
  allowWaitStatus : Bool
  progressData : ProgressData
  progressCb : Bool
deriving DecidableEq, Repr

/-- State at the start of a `cancellableTransaction` call; `hasProgressCb`
records whether the caller supplied a progress callback. -/
def initState (hasProgressCb : Bool) : TxState :=
  { settled := none
    cancelled := false
    status := none
    allowWaitStatus := false
    progressData := { waiting := false, percentage := 0, cancel := false }
    progressCb := hasProgressCb }

/-- `resolve(exit)`: a promise settles at most once, so this is a no-op on a
settled state. -/
def settleResolve (st : TxState) (exitCode : Int) : TxState :=
  if st.settled = none then { st with settled := some (Settlement.resolved exitCode) } else st

/-- `reject(err)`: a promise settles at most once, so this is a no-op on a
settled state. -/
def settleReject (st : TxState) (err : TransactionError) : TxState :=
  if st.settled = none then { st with settled := some (Settlement.rejected err) } else st

/-- The `changed` property handler of `cancellableTransaction`.  When the
progress callback is still set: record an incoming `Status`, recompute
`waiting` from `allowWaitStatus` and the latest status, update the exposed
cancel callback from `AllowCancel`, accept an incoming `Percentage` only
when it is at most 100, and push the snapshot.  Returns the new state and
the snapshot pushed to the callback, if any. -/
def changed (st : TxState) (props : Props) : TxState × Option ProgressData :=
  if st.progressCb then
    let status1 := match props.Status with
      | some s => some s
      | none => st.status
    let waiting1 := st.allowWaitStatus &&
      (decide (status1 = some PkEnum.STATUS_WAIT) ||
       decide (status1 = some PkEnum.STATUS_WAITING_FOR_LOCK))
    let cancel1 := match props.AllowCancel with
      | some b => b
      | none => st.progressData.cancel
    let pct1 := match props.Percentage with
      | some p => if p ≤ 100 then p else st.progressData.percentage
      | none => st.progressData.percentage
    let pd : ProgressData := { waiting := waiting1, percentage := pct1, cancel := cancel1 }
    ({ st with status := status1, progressData := pd }, some pd)
  else
    (st, none)

/-- The internal `ErrorCode` handler: clear the progress callback and reject
with the reported code, normalized to `cancelled` when the client has
requested cancellation. -/
def onErrorCode (st : TxState) (code detail : String) : TxState :=
  let st1 := { st with progressCb := false }
  settleReject st1 { code := if st1.cancelled then "cancelled" else code, detail := detail }

/-- The internal `Finished` handler: clear the progress callback and resolve
with the exit code. -/
def onFinished (st : TxState) (exitCode : Int) : TxState :=
  let st1 := { st with progressCb := false }
  settleResolve st1 exitCode

/-- Events delivered to one in-flight `cancellableTransaction`. -/
inductive Event where
  /-- The `ErrorCode` D-Bus signal. -/
  | errorCode (code : String) (detail : String)
  /-- The `Finished` D-Bus signal. -/
  | finished (exitCode : Int)
  /-- The bus connection closes: `watchTransaction`'s `onClose` synthesizes
  `ErrorCode('close', 'PackageKit crashed')` then `Finished(EXIT_FAILED)`. -/
  | close
  /-- The caller invokes the exposed cancel callback, which issues the
  remote `Cancel` call and sets the local `cancelled` flag. -/
  | cancelRequest
  /-- A property-change notification routed to `changed`. -/
  | propsChanged (props : Props)
  /-- The 1000ms `setTimeout` fires: allow the wait statuses and re-run
  `changed` on an empty patch. -/
  | waitTimer
deriving DecidableEq, Repr

/-- One event of the single-threaded event loop, returning the new state and
the snapshot pushed to the progress callback, if any. -/
def step (st : TxState) (e : Event) : TxState × Option ProgressData :=
  match e with
  | Event.errorCode code detail => (onErrorCode st code detail, none)
  | Event.finished exitCode => (onFinished st exitCode, none)
  | Event.close =>
      (onFinished (onErrorCode st "close" "PackageKit crashed") PkEnum.EXIT_FAILED, none)
  | Event.cancelRequest => ({ st with cancelled := true }, none)
  | Event.propsChanged props => changed st props
  | Event.waitTimer => changed { st with allowWaitStatus := true } emptyProps

/-- Run a sequence of events. -/
def run (st : TxState) : List Event → TxState
  | [] => st
  | e :: evs => run (step st e).1 evs

/-- Run a sequence of events, collecting each pushed snapshot together with
the state at the moment it was pushed. -/
def runTrace (st : TxState) : List Event → List (TxState × ProgressData)
  | [] => []
  | e :: evs =>
    (match (step st e).2 with
     | some pd => [((step st e).1, pd)]
     | none => []) ++ runTrace (step st e).1 evs

/-- The sequence of snapshots pushed to the progress callback. -/
def runOut (st : TxState) (evs : List Event) : List ProgressData :=
  (runTrace st evs).map Prod.snd

/-- Whether an event settles the promise (terminal signals and bus
closure). -/
def Event.isTerminal : Event → Bool
  | Event.errorCode _ _ => true
  | Event.finished _ => true
  | Event.close => true
  | _ => false

/-! ## Guard and facades -/

/-- The synchronous guard of `cancellableTransaction` and its first remote
call.  `handlerKeys` are the keys of the caller-supplied `signalHandlers`
object; when it contains `ErrorCode` or `Finished` a programming error is
thrown before `transaction` (whose first remote call is
`CreateTransaction`) is reached. -/
def cancellableTransactionStart (handlerKeys : List String) : Except String (List String) :=
  if handlerKeys.contains "ErrorCode" || handlerKeys.contains "Finished" then
    Except.error "cancellableTransaction handles ErrorCode and Finished signals internally"
  else
    Except.ok ["CreateTransaction"]

/-- Remote calls issued by a (possibly failed) `cancellableTransaction`
start: a synchronous throw issues none. -/
def remoteCallsMade : Except String (List String) → List String
  | Except.error _ => []
  | Except.ok calls => calls

/-- Arguments of one `Package` D-Bus signal. -/
structure PackageSignal where
  info : Int
  packageId : JSString
  summary : JSString
deriving DecidableEq, Repr

/-- The `Package` handler of `searchNames`: parse the id, attach the
summary, and override `installed` from the info code. -/
def searchNamesOnPackage (sig : PackageSignal) : PackageInfo :=
  let pkg := parsePackageIdRecord sig.packageId
  { pkg with summary := sig.summary, installed := decide (sig.info = PkEnum.INFO_INSTALLED) }

/-- The `Package` handler of `searchDetails` (same body as in
`searchNames`). -/
def searchDetailsOnPackage (sig : PackageSignal) : PackageInfo :=
  let pkg := parsePackageIdRecord sig.packageId
  { pkg with summary := sig.summary, installed := decide (sig.info = PkEnum.INFO_INSTALLED) }

/-- The `Package` handler of `searchGroups` (same body as in
`searchNames`). -/
def searchGroupsOnPackage (sig : PackageSignal) : PackageInfo :=
  let pkg := parsePackageIdRecord sig.packageId
  { pkg with summary := sig.summary, installed := decide (sig.info = PkEnum.INFO_INSTALLED) }

/-- The `Package` handler of `getPackages` (same body as in
`searchNames`). -/
def getPackagesOnPackage (sig : PackageSignal) : PackageInfo :=
  let pkg := parsePackageIdRecord sig.packageId
  { pkg with summary := sig.summary, installed := decide (sig.info = PkEnum.INFO_INSTALLED) }

/-! ## Concrete inputs used by the witnesses -/

/-- Demonstration state for the percentage filter: a live progress callback
and a previously accepted percentage of 42. -/
def c3DemoState : TxState :=
  { settled := none
    cancelled := false
    status := none
    allowWaitStatus := false
    progressData := { waiting := false, percentage := 42, cancel := false }
    progressCb := true }

/-- Demonstration patch carrying an out-of-range percentage. -/
def c3DemoProps : Props := { Status := none, AllowCancel := none, Percentage := some 150 }

/-- Demonstration trace for the waiting flag: the grace timer fires, then a
wait status arrives. -/
def c4DemoEvents : List Event :=
  [Event.waitTimer,
   Event.propsChanged { Status := some PkEnum.STATUS_WAIT, AllowCancel := none, Percentage := none }]

/-- Fallback pair for indexing into the demonstration trace. -/
def c4DemoFallback : TxState × ProgressData :=
  (initState true, { waiting := false, percentage := 0, cancel := false })

/-- The second emission of the demonstration trace: a snapshot with
`waiting = true`. -/
def c4DemoPair : TxState × ProgressData :=
  (runTrace (initState true) c4DemoEvents).getD 1 c4DemoFallback

/-- Demonstration signal: the repo tag contains `installed` but the info
code reports the package as merely available. -/
def c10DemoSignal : PackageSignal :=
  { info := PkEnum.INFO_AVAILABLE
    packageId := "vim;2:9.0;amd64;debian-installed".toList
    summary := "an editor".toList }

/-! ## Helper lemmas -/

/-- Looking a key up in an association list fails when the key is not among
the entry keys. -/
theorem lookup_eq_none_of_not_mem_keys {α β : Type} [BEq α] [LawfulBEq α]
    (l : List (α × β)) (a : α) (h : a ∉ l.map Prod.fst) : l.lookup a = none := by
  induction l with
  | nil => rfl
  | cons p rest ih =>
    simp only [List.map_cons, List.mem_cons] at h
    push_neg at h
    obtain ⟨h1, h2⟩ := h
    obtain ⟨k, v⟩ := p
    have hb : (a == k) = false := beq_eq_false_iff_ne.mpr h1
    simp only [List.lookup, hb]
    exact ih h2

/-- C5: for every call to `cancellableTransaction` whose `signalHandlers`
argument contains an `ErrorCode` or `Finished` handler, the call fails
synchronously with a programming error before any remote call (including
the `CreateTransaction` call) is made. -/
theorem reserved_signal_handlers_rejected (handlerKeys : List String)
    (h : "ErrorCode" ∈ handlerKeys ∨ "Finished" ∈ handlerKeys) :
    cancellableTransactionStart handlerKeys
      = Except.error "cancellableTransaction handles ErrorCode and Finished signals internally"
    ∧ remoteCallsMade (cancellableTransactionStart handlerKeys) = [] := by
  have hc : (handlerKeys.contains "ErrorCode" || handlerKeys.contains "Finished") = true := by
    rcases h with h | h <;> simp [h]
  have hstart : cancellableTransactionStart handlerKeys
      = Except.error "cancellableTransaction handles ErrorCode and Finished signals internally" := by
    unfold cancellableTransactionStart
    exact if_pos hc
  exact ⟨hstart, by rw [hstart]; rfl⟩

/-- Witness for C5 at a concrete handler object supplying `ErrorCode`. -/
theorem reserved_signal_handlers_rejected_witness :
    ("ErrorCode" ∈ ["Package", "ErrorCode"] ∨ "Finished" ∈ ["Package", "ErrorCode"])
    ∧ (cancellableTransactionStart ["Package", "ErrorCode"]
        = Except.error "cancellableTransaction handles ErrorCode and Finished signals internally"
      ∧ remoteCallsMade (cancellableTransactionStart ["Package", "ErrorCode"]) = []) :=
  ⟨Or.inl (by decide),
   reserved_signal_handlers_rejected ["Package", "ErrorCode"] (Or.inl (by decide))⟩

/-- C9: for every mount-options string containing the `ro` option, `detect`
returns false without attempting the D-Bus property read; otherwise its
result is the boolean outcome of the property read. -/
theorem detect_readonly_skips_property_read (options : JSString) (propertyReadOk : Bool) :
    (roOption ∈ options.splitOn ',' →
        detect (some options) propertyReadOk
          = { available := false, propertyReadAttempted := false })
    ∧ (roOption ∉ options.splitOn ',' →
        detect (some options) propertyReadOk = dbusDetect propertyReadOk) := by
  constructor
  · intro h
    have hc : (options.splitOn ',').contains roOption = true := by simpa using h
    simp only [detect]
    rw [if_pos hc]
  · intro h
    have hc : (options.splitOn ',').contains roOption = false := by simpa using h
    simp only [detect]
    rw [if_neg (by simpa using h)]

/-- Witness for C9 on a read-only mount-options string. -/
theorem detect_readonly_skips_property_read_witness :
    (roOption ∈ ("ro,relatime".toList : JSString).splitOn ',')
    ∧ detect (some "ro,relatime".toList) true
        = { available := false, propertyReadAttempted := false } :=
  ⟨by decide, (detect_readonly_skips_property_read "ro,relatime".toList true).1 (by decide)⟩

/-- C10: in the `Package` handlers of `searchNames`, `searchDetails`,
`searchGroups` and `getPackages`, the resulting record's `installed` flag
equals whether the info code is `INFO_INSTALLED`, overriding the value
`parsePackageId` derived from the repo tag: a package whose id tag contains
`installed` is still reported not installed when the info code differs. -/
theorem facade_installed_overrides_tag (sig : PackageSignal) :
    ((searchNamesOnPackage sig).installed = true ↔ sig.info = PkEnum.INFO_INSTALLED)
    ∧ ((searchDetailsOnPackage sig).installed = true ↔ sig.info = PkEnum.INFO_INSTALLED)
    ∧ ((searchGroupsOnPackage sig).installed = true ↔ sig.info = PkEnum.INFO_INSTALLED)
    ∧ ((getPackagesOnPackage sig).installed = true ↔ sig.info = PkEnum.INFO_INSTALLED)
    ∧ (sig.info ≠ PkEnum.INFO_INSTALLED →
        (parsePackageIdRecord sig.packageId).installed = true →
        (searchNamesOnPackage sig).installed = false) := by
  refine ⟨by simp [searchNamesOnPackage], by simp [searchDetailsOnPackage],
          by simp [searchGroupsOnPackage], by simp [getPackagesOnPackage], ?_⟩
  intro hne _
  simp [searchNamesOnPackage, hne]

/-- Witness for C10: an available package whose repo tag contains the
installed marker is reported not installed. -/
theorem facade_installed_overrides_tag_witness :
    (c10DemoSignal.info ≠ PkEnum.INFO_INSTALLED
      ∧ (parsePackageIdRecord c10DemoSignal.packageId).installed = true)
    ∧ (searchNamesOnPackage c10DemoSignal).installed = false :=
  ⟨⟨by decide, by decide⟩,
   (facade_installed_overrides_tag c10DemoSignal).2.2.2.2 (by decide) (by decide)⟩

/-- C6: for every valid compound identifier `name;version;arch;tag`,
`parsePackageId` produces fields whose re-joining with `;` reproduces the
original string, and `installed` is true iff the tag segment contains the
`installed` substring. -/
theorem parsePackageId_roundtrip (nm ver arch tag : JSString)
    (hn : ';' ∉ nm) (hv : ';' ∉ ver) (ha : ';' ∉ arch) (ht : ';' ∉ tag) :
    parsePackageId (JsValue.str ([';'].intercalate [nm, ver, arch, tag]))
      = Except.ok (parsePackageIdRecord ([';'].intercalate [nm, ver, arch, tag]))
    ∧ [';'].intercalate
        [(parsePackageIdRecord ([';'].intercalate [nm, ver, arch, tag])).name,
         (parsePackageIdRecord ([';'].intercalate [nm, ver, arch, tag])).version,
         (parsePackageIdRecord ([';'].intercalate [nm, ver, arch, tag])).arch,
         (parsePackageIdRecord ([';'].intercalate [nm, ver, arch, tag])).repo]
      = [';'].intercalate [nm, ver, arch, tag]
    ∧ ((parsePackageIdRecord ([';'].intercalate [nm, ver, arch, tag])).installed = true
        ↔ installedMarker <:+: tag) := by
  have hx : ∀ l ∈ [nm, ver, arch, tag], ';' ∉ l := by
    intro l hl
    simp only [List.mem_cons, List.not_mem_nil, or_false] at hl
    rcases hl with rfl | rfl | rfl | rfl <;> assumption
  have hsplit : ([';'].intercalate [nm, ver, arch, tag]).splitOn ';' = [nm, ver, arch, tag] :=
    List.splitOn_intercalate [nm, ver, arch, tag] ';' hx (by simp)
  refine ⟨rfl, ?_, ?_⟩
  · simp [parsePackageIdRecord, hsplit]
  · simp [parsePackageIdRecord, hsplit, jsIncludes]

/-- Witness for C6 on the identifier `nginx;1.18.0;amd64;now-installed`. -/
theorem parsePackageId_roundtrip_witness :
    (';' ∉ ("nginx".toList : JSString) ∧ ';' ∉ ("1.18.0".toList : JSString)
      ∧ ';' ∉ ("amd64".toList : JSString) ∧ ';' ∉ ("now-installed".toList : JSString))
    ∧ ([';'].intercalate
        [(parsePackageIdRecord
            ([';'].intercalate
              ["nginx".toList, "1.18.0".toList, "amd64".toList, "now-installed".toList])).name,
         (parsePackageIdRecord
            ([';'].intercalate
              ["nginx".toList, "1.18.0".toList, "amd64".toList, "now-installed".toList])).version,
         (parsePackageIdRecord
            ([';'].intercalate
              ["nginx".toList, "1.18.0".toList, "amd64".toList, "now-installed".toList])).arch,
         (parsePackageIdRecord
            ([';'].intercalate
              ["nginx".toList, "1.18.0".toList, "amd64".toList, "now-installed".toList])).repo]
        = [';'].intercalate
            ["nginx".toList, "1.18.0".toList, "amd64".toList, "now-installed".toList]
      ∧ ((parsePackageIdRecord
            ([';'].intercalate
              ["nginx".toList, "1.18.0".toList, "amd64".toList, "now-installed".toList])).installed
            = true
          ↔ installedMarker <:+: ("now-installed".toList : JSString))) :=
  ⟨⟨by decide, by decide, by decide, by decide⟩,
   (parsePackageId_roundtrip "nginx".toList "1.18.0".toList "amd64".toList "now-installed".toList
      (by decide) (by decide) (by decide) (by decide)).2⟩

/-- Counterexample for C7: the string `;1.0;amd64;repo` parses successfully
but with an empty `name` field, refuting the claim that every successful
string parse has a non-empty name. -/
theorem parsePackageId_empty_name_counterexample :
    parsePackageId (JsValue.str ";1.0;amd64;repo".toList)
      = Except.ok (parsePackageIdRecord ";1.0;amd64;repo".toList)
    ∧ (parsePackageIdRecord ";1.0;amd64;repo".toList).name = [] :=
  ⟨rfl, by decide⟩

/-- C7 as amended: `parsePackageId` fails with a synchronous `TypeError` for
every non-string input; every string input succeeds (never a partially
populated record used as failure), and the returned `name` is non-empty
whenever the first `;`-segment of the input is non-empty. -/
theorem parsePackageId_nonstring_and_first_segment (typeName : String) (s : JSString)
    (hfirst : (s.splitOn ';').getD 0 [] ≠ []) :
    parsePackageId (JsValue.nonString typeName)
      = Except.error ("packageId must be a string, got " ++ typeName)
    ∧ parsePackageId (JsValue.str s) = Except.ok (parsePackageIdRecord s)
    ∧ (parsePackageIdRecord s).name ≠ [] := by
  refine ⟨rfl, rfl, ?_⟩
  simpa [parsePackageIdRecord] using hfirst

/-- Witness for the amended C7 at a non-string input of type `number` and
the string `nginx;1.0;amd64;repo`. -/
theorem parsePackageId_nonstring_and_first_segment_witness :
    ((("nginx;1.0;amd64;repo".toList : JSString).splitOn ';').getD 0 [] ≠ [])
    ∧ (parsePackageId (JsValue.nonString "number")
        = Except.error ("packageId must be a string, got " ++ "number")
      ∧ parsePackageId (JsValue.str "nginx;1.0;amd64;repo".toList)
        = Except.ok (parsePackageIdRecord "nginx;1.0;amd64;repo".toList)
      ∧ (parsePackageIdRecord "nginx;1.0;amd64;repo".toList).name ≠ []) :=
  ⟨by decide,
   parsePackageId_nonstring_and_first_segment "number" "nginx;1.0;amd64;repo".toList (by decide)⟩

/-- C8: the group maps are mutually inverse on recognized tokens and fall
back to the unknown sentinel in both directions. -/
theorem group_maps_mutually_inverse :
    (∀ gid ∈ recognizedGroupIds, mapGroupEnumToId (mapGroupIdToEnum gid) = gid)
    ∧ (∀ code : Int, code ∉ recognizedGroupEnums → mapGroupEnumToId code = "unknown")
    ∧ (∀ gid : String, gid ∉ recognizedGroupIds → mapGroupIdToEnum gid = PkEnum.GROUP_UNKNOWN) := by
  refine ⟨by decide, ?_, ?_⟩
  · intro code hc
    have hl : groupEnumToIdEntries.lookup code = none :=
      lookup_eq_none_of_not_mem_keys _ _ (by simpa [recognizedGroupEnums] using hc)
    simp [mapGroupEnumToId, hl]
  · intro gid hg
    have hl : groupIdToEnumEntries.lookup gid = none :=
      lookup_eq_none_of_not_mem_keys _ _ (by simpa [recognizedGroupIds] using hg)
    simp [mapGroupIdToEnum, hl]

/-- Witness for C8 at the token `network`, the unrecognized code 99, and
the unrecognized token `no-such-group`. -/
theorem group_maps_mutually_inverse_witness :
    ("network" ∈ recognizedGroupIds
      ∧ mapGroupEnumToId (mapGroupIdToEnum "network") = "network")
    ∧ ((99 : Int) ∉ recognizedGroupEnums ∧ mapGroupEnumToId 99 = "unknown")
    ∧ ("no-such-group" ∉ recognizedGroupIds
      ∧ mapGroupIdToEnum "no-such-group" = PkEnum.GROUP_UNKNOWN) :=
  ⟨⟨by decide, group_maps_mutually_inverse.1 "network" (by decide)⟩,
   ⟨by decide, group_maps_mutually_inverse.2.1 99 (by decide)⟩,
   ⟨by decide, group_maps_mutually_inverse.2.2 "no-such-group" (by decide)⟩⟩

/-! ## Transaction-machine lemmas -/

/-- Running an appended trace is running the pieces in order. -/
theorem run_append (st : TxState) (l1 l2 : List Event) :
    run st (l1 ++ l2) = run (run st l1) l2 := by
  induction l1 generalizing st with
  | nil => rfl
  | cons e l ih =>
    simp only [List.cons_append, run]
    exact ih (step st e).1

/-- The property handler never touches the settlement. -/
theorem changed_fst_settled (st : TxState) (p : Props) :
    (changed st p).1.settled = st.settled := by
  by_cases h : st.progressCb = true <;> simp [changed, h]

/-- Non-terminal events never touch the settlement. -/
theorem step_fst_settled_of_nonterminal (st : TxState) (e : Event)
    (h : e.isTerminal = false) : (step st e).1.settled = st.settled := by
  cases e with
  | errorCode c d => simp [Event.isTerminal] at h
  | finished x => simp [Event.isTerminal] at h
  | close => simp [Event.isTerminal] at h
  | cancelRequest => rfl
  | propsChanged p => exact changed_fst_settled st p
  | waitTimer => exact changed_fst_settled _ _

/-- A trace of non-terminal events leaves the settlement unchanged. -/
theorem run_settled_of_nonterminal (evs : List Event) (st : TxState)
    (h : ∀ e ∈ evs, e.isTerminal = false) : (run st evs).settled = st.settled := by
  induction evs generalizing st with
  | nil => rfl
  | cons e evs ih =>
    have he := h e (List.mem_cons_self e evs)
    have hrest : ∀ x ∈ evs, x.isTerminal = false := fun x hx => h x (List.mem_cons_of_mem _ hx)
    calc (run st (e :: evs)).settled
        = (step st e).1.settled := ih (step st e).1 hrest
      _ = st.settled := step_fst_settled_of_nonterminal st e he

/-- A resolve after settlement is a no-op on the settlement. -/
theorem settleResolve_settled_some (st : TxState) (x : Int) (s : Settlement)
    (h : st.settled = some s) : (settleResolve st x).settled = some s := by
  simp [settleResolve, h]

/-- A reject after settlement is a no-op on the settlement. -/
theorem settleReject_settled_some (st : TxState) (err : TransactionError) (s : Settlement)
    (h : st.settled = some s) : (settleReject st err).settled = some s := by
  simp [settleReject, h]

/-- Once settled, every later event preserves the settlement. -/
theorem step_fst_settled_some (st : TxState) (e : Event) (s : Settlement)
    (h : st.settled = some s) : (step st e).1.settled = some s := by
  cases e with
  | errorCode c d => exact settleReject_settled_some _ _ _ h
  | finished x => exact settleResolve_settled_some _ _ _ h
  | close => exact settleResolve_settled_some _ _ _ (settleReject_settled_some _ _ _ h)
  | cancelRequest => exact h
  | propsChanged p => exact (changed_fst_settled st p).trans h
  | waitTimer => exact (changed_fst_settled _ _).trans h

/-- Once settled, every later trace preserves the settlement. -/
theorem run_settled_some (evs : List Event) (st : TxState) (s : Settlement)
    (h : st.settled = some s) : (run st evs).settled = some s := by
  induction evs generalizing st with
  | nil => exact h
  | cons e evs ih => exact ih (step st e).1 (step_fst_settled_some st e s h)

/-- C1: if the bus connection closes before any Finished or ErrorCode signal
arrives, the promise settles exactly once, with a rejection carrying a
`TransactionError`; any later events (including a Finished signal) leave
that rejection in place, so it is never resolved a second time. -/
theorem close_settles_exactly_once (hasCb : Bool) (pre post : List Event)
    (hpre : ∀ e ∈ pre, e.isTerminal = false) :
    ∃ err : TransactionError,
      (run (initState hasCb) (pre ++ [Event.close])).settled
        = some (Settlement.rejected err)
      ∧ (run (initState hasCb) (pre ++ Event.close :: post)).settled
        = some (Settlement.rejected err) := by
  have h0 : (run (initState hasCb) pre).settled = none :=
    run_settled_of_nonterminal pre (initState hasCb) hpre
  refine ⟨{ code := if (run (initState hasCb) pre).cancelled then "cancelled" else "close",
            detail := "PackageKit crashed" }, ?_, ?_⟩
  · rw [run_append]
    exact settleResolve_settled_some _ _ _ (by simp [onErrorCode, settleReject, h0])
  · rw [run_append]
    exact run_settled_some post _ _
      (settleResolve_settled_some _ _ _ (by simp [onErrorCode, settleReject, h0]))

/-- Witness for C1: a bare close followed by a stray Finished signal leaves
the rejection in place. -/
theorem close_settles_exactly_once_witness :
    (∀ e ∈ ([] : List Event), e.isTerminal = false)
    ∧ ∃ err : TransactionError,
        (run (initState true) ([] ++ [Event.close])).settled
          = some (Settlement.rejected err)
        ∧ (run (initState true) ([] ++ Event.close :: [Event.finished 1])).settled
          = some (Settlement.rejected err) :=
  ⟨by simp, close_settles_exactly_once true [] [Event.finished 1] (by simp)⟩

/-- A resolve preserves the cancelled flag. -/
theorem settleResolve_cancelled (st : TxState) (x : Int) :
    (settleResolve st x).cancelled = st.cancelled := by
  unfold settleResolve; split <;> rfl

/-- A reject preserves the cancelled flag. -/
theorem settleReject_cancelled (st : TxState) (err : TransactionError) :
    (settleReject st err).cancelled = st.cancelled := by
  unfold settleReject; split <;> rfl

/-- The property handler preserves the cancelled flag. -/
theorem changed_fst_cancelled (st : TxState) (p : Props) :
    (changed st p).1.cancelled = st.cancelled := by
  by_cases h : st.progressCb = true <;> simp [changed, h]

/-- The cancelled flag, once set, stays set. -/
theorem step_cancelled_mono (st : TxState) (e : Event) (h : st.cancelled = true) :
    (step st e).1.cancelled = true := by
  cases e with
  | errorCode c d => exact (settleReject_cancelled _ _).trans h
  | finished x => exact (settleResolve_cancelled _ _).trans h
  | close => exact (settleResolve_cancelled _ _).trans ((settleReject_cancelled _ _).trans h)
  | cancelRequest => rfl
  | propsChanged p => exact (changed_fst_cancelled _ _).trans h
  | waitTimer => exact (changed_fst_cancelled _ _).trans h

/-- A reject with a `cancelled` code preserves the property that every
recorded rejection carries the `cancelled` code. -/
theorem settleReject_code (st : TxState) (err0 : TransactionError)
    (hprev : ∀ err, st.settled = some (Settlement.rejected err) → err.code = "cancelled")
    (h0 : err0.code = "cancelled") :
    ∀ err, (settleReject st err0).settled = some (Settlement.rejected err)
      → err.code = "cancelled" := by
  intro err h
  unfold settleReject at h
  split at h
  · simp only [Option.some.injEq, Settlement.rejected.injEq] at h
    rw [← h]
    exact h0
  · exact hprev err h

/-- A resolve preserves the property that every recorded rejection carries
the `cancelled` code. -/
theorem settleResolve_code (st : TxState) (x : Int)
    (hprev : ∀ err, st.settled = some (Settlement.rejected err) → err.code = "cancelled") :
    ∀ err, (settleResolve st x).settled = some (Settlement.rejected err)
      → err.code = "cancelled" := by
  intro err h
  unfold settleResolve at h
  split at h
  · simp at h
  · exact hprev err h

/-- After a cancellation request, every event preserves the property that
any recorded rejection carries the `cancelled` code. -/
theorem step_rejected_code (st : TxState) (e : Event) (hc : st.cancelled = true)
    (hprev : ∀ err, st.settled = some (Settlement.rejected err) → err.code = "cancelled") :
    ∀ err, (step st e).1.settled = some (Settlement.rejected err) → err.code = "cancelled" := by
  cases e with
  | errorCode c d => exact settleReject_code _ _ hprev (by simp [hc])
  | finished x => exact settleResolve_code _ _ hprev
  | close => exact settleResolve_code _ _ (settleReject_code _ _ hprev (by simp [hc]))
  | cancelRequest => exact hprev
  | propsChanged p =>
    intro err h
    exact hprev err ((changed_fst_settled st p).symm.trans h)
  | waitTimer =>
    intro err h
    exact hprev err ((changed_fst_settled { st with allowWaitStatus := true } emptyProps).symm.trans h)

/-- After a cancellation request, every trace preserves the property that
any recorded rejection carries the `cancelled` code. -/
theorem run_rejected_code (evs : List Event) (st : TxState) (hc : st.cancelled = true)
    (hprev : ∀ err, st.settled = some (Settlement.rejected err) → err.code = "cancelled") :
    ∀ err, (run st evs).settled = some (Settlement.rejected err) → err.code = "cancelled" := by
  induction evs generalizing st with
  | nil => exact hprev
  | cons e evs ih =>
    exact ih (step st e).1 (step_cancelled_mono st e hc) (step_rejected_code st e hc hprev)

/-- C2: if the caller invokes the exposed cancel callback before any
terminal signal arrives, the promise's eventual rejection carries the code
`cancelled`, regardless of the error code the service reports. -/
theorem cancel_normalizes_rejection_code (hasCb : Bool) (pre post : List Event)
    (hpre : ∀ e ∈ pre, e.isTerminal = false) (err : TransactionError)
    (hrej : (run (initState hasCb) (pre ++ Event.cancelRequest :: post)).settled
        = some (Settlement.rejected err)) :
    err.code = "cancelled" := by
  rw [run_append] at hrej
  have h0 : (run (initState hasCb) pre).settled = none :=
    run_settled_of_nonterminal pre (initState hasCb) hpre
  have hprev : ∀ e2,
      ({ run (initState hasCb) pre with cancelled := true } : TxState).settled
        = some (Settlement.rejected e2) → e2.code = "cancelled" := by
    intro e2 h2
    rw [show ({ run (initState hasCb) pre with cancelled := true } : TxState).settled
          = (run (initState hasCb) pre).settled from rfl, h0] at h2
    cases h2
  exact run_rejected_code post _ rfl hprev err hrej

/-- Witness for C2: cancellation followed by a `no-network` error code still
rejects with the `cancelled` code. -/
theorem cancel_normalizes_rejection_code_witness :
    ((∀ e ∈ ([] : List Event), e.isTerminal = false)
      ∧ (run (initState true)
            ([] ++ Event.cancelRequest :: [Event.errorCode "no-network" "offline"])).settled
          = some (Settlement.rejected { code := "cancelled", detail := "offline" }))
    ∧ ({ code := "cancelled", detail := "offline" } : TransactionError).code = "cancelled" :=
  ⟨⟨by simp, by decide⟩,
   cancel_normalizes_rejection_code true [] [Event.errorCode "no-network" "offline"]
     (by simp) { code := "cancelled", detail := "offline" } (by decide)⟩

/-- C3: a property-change notification carrying a Percentage value updates
the snapshot's percentage only when the value is at most 100; an
out-of-range value leaves the last accepted value in place, and the pushed
snapshot is exactly the updated record. -/
theorem percentage_accepted_only_le_100 (st : TxState) (props : Props) (p : Int)
    (hcb : st.progressCb = true) (hp : props.Percentage = some p) :
    (step st (Event.propsChanged props)).1.progressData.percentage
      = (if p ≤ 100 then p else st.progressData.percentage)
    ∧ (step st (Event.propsChanged props)).2
      = some ((step st (Event.propsChanged props)).1.progressData) := by
  constructor
  · simp [step, changed, hcb, hp]
  · simp [step, changed, hcb]

/-- Witness for C3: an incoming value of 150 leaves the last accepted value
42 in place. -/
theorem percentage_accepted_only_le_100_witness :
    (c3DemoState.progressCb = true ∧ c3DemoProps.Percentage = some 150)
    ∧ ((step c3DemoState (Event.propsChanged c3DemoProps)).1.progressData.percentage
        = (if (150 : Int) ≤ 100 then (150 : Int) else c3DemoState.progressData.percentage)
      ∧ (step c3DemoState (Event.propsChanged c3DemoProps)).2
        = some ((step c3DemoState (Event.propsChanged c3DemoProps)).1.progressData)) :=
  ⟨⟨rfl, rfl⟩, percentage_accepted_only_le_100 c3DemoState c3DemoProps 150 rfl rfl⟩

/-- If the property handler pushes a snapshot with the waiting flag set, the
recorded status is the wait or waiting-for-lock code and the wait grace
period had elapsed. -/
theorem changed_waiting_true (st : TxState) (props : Props) (pd : ProgressData)
    (h : (changed st props).2 = some pd) (hw : pd.waiting = true) :
    st.allowWaitStatus = true
    ∧ ((changed st props).1.status = some PkEnum.STATUS_WAIT
      ∨ (changed st props).1.status = some PkEnum.STATUS_WAITING_FOR_LOCK) := by
  by_cases hcb : st.progressCb = true
  · simp only [changed, hcb, eq_self_iff_true, if_true, Option.some.injEq] at h
    subst h
    simp only [Bool.and_eq_true, Bool.or_eq_true, decide_eq_true_eq] at hw
    obtain ⟨ha, hor⟩ := hw
    refine ⟨ha, ?_⟩
    simp only [changed, hcb, eq_self_iff_true, if_true]
    exact hor
  · simp [changed, hcb] at h

/-- If a step pushes a snapshot with the waiting flag set, the state after
the step records the wait or waiting-for-lock status. -/
theorem step_emit_waiting (st : TxState) (e : Event) (pd : ProgressData)
    (h : (step st e).2 = some pd) (hw : pd.waiting = true) :
    (step st e).1.status = some PkEnum.STATUS_WAIT
    ∨ (step st e).1.status = some PkEnum.STATUS_WAITING_FOR_LOCK := by
  cases e with
  | errorCode c d => simp [step] at h
  | finished x => simp [step] at h
  | close => simp [step] at h
  | cancelRequest => simp [step] at h
  | propsChanged p => exact (changed_waiting_true st p pd h hw).2
  | waitTimer => exact (changed_waiting_true { st with allowWaitStatus := true } emptyProps pd h hw).2

/-- The property handler preserves the wait-grace flag. -/
theorem changed_fst_allowWait (st : TxState) (p : Props) :
    (changed st p).1.allowWaitStatus = st.allowWaitStatus := by
  by_cases h : st.progressCb = true <;> simp [changed, h]

/-- A resolve preserves the wait-grace flag. -/
theorem settleResolve_allowWait (st : TxState) (x : Int) :
    (settleResolve st x).allowWaitStatus = st.allowWaitStatus := by
  unfold settleResolve; split <;> rfl

/-- A reject preserves the wait-grace flag. -/
theorem settleReject_allowWait (st : TxState) (err : TransactionError) :
    (settleReject st err).allowWaitStatus = st.allowWaitStatus := by
  unfold settleReject; split <;> rfl

/-- Every event except the grace timer preserves the wait-grace flag. -/
theorem step_fst_allowWait (st : TxState) (e : Event) (h : e ≠ Event.waitTimer) :
    (step st e).1.allowWaitStatus = st.allowWaitStatus := by
  cases e with
  | errorCode c d => exact settleReject_allowWait _ _
  | finished x => exact settleResolve_allowWait _ _
  | close => exact (settleResolve_allowWait _ _).trans (settleReject_allowWait _ _)
  | cancelRequest => rfl
  | propsChanged p => exact changed_fst_allowWait _ _
  | waitTimer => exact absurd rfl h

/-- Before the grace timer enables the wait statuses, the property handler
only pushes snapshots with the waiting flag cleared. -/
theorem changed_emit_waiting_false (st : TxState) (p : Props) (pd : ProgressData)
    (ha : st.allowWaitStatus = false) (h : (changed st p).2 = some pd) :
    pd.waiting = false := by
  by_cases hcb : st.progressCb = true
  · simp only [changed, hcb, eq_self_iff_true, if_true, Option.some.injEq] at h
    subst h
    simp [ha]
  · simp [changed, hcb] at h

/-- Before the grace timer, every event pushes only snapshots with the
waiting flag cleared. -/
theorem step_emit_waiting_false (st : TxState) (e : Event) (pd : ProgressData)
    (ha : st.allowWaitStatus = false) (hne : e ≠ Event.waitTimer)
    (h : (step st e).2 = some pd) : pd.waiting = false := by
  cases e with
  | errorCode c d => simp [step] at h
  | finished x => simp [step] at h
  | close => simp [step] at h
  | cancelRequest => simp [step] at h
  | propsChanged p => exact changed_emit_waiting_false st p pd ha h
  | waitTimer => exact absurd rfl hne

/-- A trace without the grace-timer event only pushes snapshots with the
waiting flag cleared. -/
theorem runTrace_waiting_false (evs : List Event) (st : TxState)
    (ha : st.allowWaitStatus = false) (hnot : Event.waitTimer ∉ evs) :
    ∀ q ∈ runTrace st evs, q.2.waiting = false := by
  induction evs generalizing st with
  | nil => intro q hq; simp [runTrace] at hq
  | cons e evs ih =>
    intro q hq
    have hne : e ≠ Event.waitTimer := by
      rintro rfl; exact hnot (List.mem_cons_self _ _)
    have hnot2 : Event.waitTimer ∉ evs := fun hx => hnot (List.mem_cons_of_mem _ hx)
    have ha2 : (step st e).1.allowWaitStatus = false := (step_fst_allowWait st e hne).trans ha
    simp only [runTrace] at hq
    rcases List.mem_append.mp hq with hq1 | hq2
    · cases h2 : (step st e).2 with
      | none => rw [h2] at hq1; simp at hq1
      | some pd =>
        rw [h2] at hq1
        simp only [List.mem_singleton] at hq1
        subst hq1
        exact step_emit_waiting_false st e pd ha hne h2
    · exact ih (step st e).1 ha2 hnot2 q hq2

/-- Every pushed snapshot with the waiting flag set was pushed in a state
whose recorded status is the wait or waiting-for-lock code. -/
theorem runTrace_waiting_status (evs : List Event) (st : TxState) :
    ∀ q ∈ runTrace st evs, q.2.waiting = true →
      q.1.status = some PkEnum.STATUS_WAIT
      ∨ q.1.status = some PkEnum.STATUS_WAITING_FOR_LOCK := by
  induction evs generalizing st with
  | nil => intro q hq; simp [runTrace] at hq
  | cons e evs ih =>
    intro q hq hw
    simp only [runTrace] at hq
    rcases List.mem_append.mp hq with hq1 | hq2
    · cases h2 : (step st e).2 with
      | none => rw [h2] at hq1; simp at hq1
      | some pd =>
        rw [h2] at hq1
        simp only [List.mem_singleton] at hq1
        subst hq1
        exact step_emit_waiting st e pd h2 hw
    · exact ih (step st e).1 q hq2 hw

/-- C4: a snapshot pushed to the progress callback has the waiting flag set
only if the grace timer has fired within the trace (at least 1000ms after
start) and the most recent Status is the wait or waiting-for-lock code; in
particular a snapshot produced before the timer never has waiting set. -/
theorem waiting_requires_timer_and_wait_status (hasCb : Bool) (evs : List Event)
    (q : TxState × ProgressData) (hq : q ∈ runTrace (initState hasCb) evs)
    (hw : q.2.waiting = true) :
    Event.waitTimer ∈ evs
    ∧ (q.1.status = some PkEnum.STATUS_WAIT
      ∨ q.1.status = some PkEnum.STATUS_WAITING_FOR_LOCK) := by
  constructor
  · by_contra hnot
    have hfalse := runTrace_waiting_false evs (initState hasCb) rfl hnot q hq
    simp [hw] at hfalse
  · exact runTrace_waiting_status evs (initState hasCb) q hq hw

/-- Witness for C4: after the grace timer and a wait status, the trace
pushes a waiting snapshot whose state records the wait status. -/
theorem waiting_requires_timer_and_wait_status_witness :
    (c4DemoPair ∈ runTrace (initState true) c4DemoEvents
      ∧ c4DemoPair.2.waiting = true)
    ∧ (Event.waitTimer ∈ c4DemoEvents
      ∧ (c4DemoPair.1.status = some PkEnum.STATUS_WAIT
        ∨ c4DemoPair.1.status = some PkEnum.STATUS_WAITING_FOR_LOCK)) :=
  ⟨⟨by decide, by decide⟩,
   waiting_requires_timer_and_wait_status true c4DemoEvents c4DemoPair (by decide) (by decide)⟩
